import Mathlib

/-!
Verification development for the Singer target `target_azureblobstorage.py`
(single-module stream processor: stdin lines → per-stream buffer files →
gzip → Azure blob upload). The Python module is shallowly embedded below:
the mutable locals of `persist_lines` (`state`, `schemas`, `key_properties`,
the working directory contents, and the blob-upload side effects) become an
explicit record `PState`, each loop iteration becomes the `step` function,
and Python exceptions become an `Except` error channel that also carries
the filesystem/upload state at the moment the exception propagates.
External collaborators (gzip compression, the Azure blob client, the
jsonschema Draft-4 validator) are parameters of the context `Ctx`, exactly
at their call boundary in the source.
-/

namespace TargetAzure

/-- JSON values as produced by Python's `json.loads`: Python `None` is
`Json.null`, dicts keep insertion order as a field list. Numeric literals
are modelled as integers (no claim under study involves floats). -/
inductive Json where
  | null
  | bool (b : Bool)
  | num (n : Int)
  | str (s : String)
  | arr (elems : List Json)
  | obj (fields : List (String × Json))

mutual

/-- Equality of decoded JSON values, modelling Python `==` on the results
of `json.loads` (used for dict key lookups). -/
def Json.beq : Json → Json → Bool
  | .null, .null => true
  | .bool a, .bool b => a == b
  | .num a, .num b => a == b
  | .str a, .str b => a == b
  | .arr xs, .arr ys => beqElems xs ys
  | .obj fs, .obj gs => beqFields fs gs
  | _, _ => false

/-- Elementwise equality of JSON arrays. -/
def beqElems : List Json → List Json → Bool
  | [], [] => true
  | x :: xs, y :: ys => Json.beq x y && beqElems xs ys
  | _, _ => false

/-- Entrywise equality of JSON object field lists. -/
def beqFields : List (String × Json) → List (String × Json) → Bool
  | [], [] => true
  | (k, v) :: fs, (l, w) :: gs => k == l && Json.beq v w && beqFields fs gs
  | _, _ => false

end

instance : BEq Json := ⟨Json.beq⟩

/-- Python dict lookup `d[k]` / membership `k in d`: first entry whose key
equals `k`. -/
def lookupB {α β : Type} [BEq α] : List (α × β) → α → Option β
  | [], _ => none
  | (a, b) :: rest, k => if a == k then some b else lookupB rest k

/-- Python dict assignment `d[k] = v`: replaces in place when the key is
present (keeping its position), otherwise appends the new entry. -/
def insertB {α β : Type} [BEq α] : List (α × β) → α → β → List (α × β)
  | [], k, v => [(k, v)]
  | (a, b) :: rest, k, v =>
    if a == k then (k, v) :: rest else (a, b) :: insertB rest k v

/-- Removal of a file name from the working-directory listing, modelling
`os.remove` (source lines 116-117). -/
def eraseB {α β : Type} [BEq α] : List (α × β) → α → List (α × β)
  | [], _ => []
  | (a, b) :: rest, k =>
    if a == k then eraseB rest k else (a, b) :: eraseB rest k

/-- Append-mode file write, modelling `open(stream_path, "a")` followed by
`file_obj.write(...)` (source lines 89-93): extends the existing file's
contents, creating the file when absent. -/
def appendB : List (String × String) → String → String → List (String × String)
  | [], f, s => [(f, s)]
  | (g, c) :: rest, f, s =>
    if g == f then (g, c ++ s) :: rest else (g, c) :: appendB rest f s

/-- Python dict subscript on a decoded JSON object: `j[k]` is `some v`
when `j` is an object with field `k`; non-objects yield `none` (callers
branch on the object shape separately where Python would raise). -/
def Json.get? : Json → String → Option Json
  | .obj fields, k => lookupB fields k
  | _, _ => none

/-- Python truthiness of a JSON value, as used by
`if not state["currently_syncing"]` (source line 101): `False`, `None`,
`0`, empty string, empty list and empty dict are falsy. -/
def Json.falsy : Json → Bool
  | .null => true
  | .bool b => !b
  | .num n => n == 0
  | .str s => s == ""
  | .arr elems => elems.isEmpty
  | .obj fields => fields.isEmpty

/-- Removal of every occurrence of the substring ".json" scanning left to
right, modelling Python `_file.replace(".json", "")` (source line 111). -/
def stripDotJson : List Char → List Char
  | '.' :: 'j' :: 's' :: 'o' :: 'n' :: rest => stripDotJson rest
  | c :: rest => c :: stripDotJson rest
  | [] => []

/-- String form of `_file.replace(".json", "")` (source line 111). -/
def replaceDotJson (s : String) : String := String.mk (stripDotJson s.data)

/-- The blob key built at source lines 109-115:
`_file.replace(".json", "") + "/" + now + ".gz"`. -/
def blobKey (now fname : String) : String :=
  replaceDotJson fname ++ "/" ++ now ++ ".gz"

/-- The mutable state of `persist_lines` (source lines 45-57): the local
variables `state`, `schemas`, `key_properties` (the compiled `validators`
dict always mirrors `schemas`, both being written only together at lines
123-124, so it is not tracked separately), the contents of the working
directory `~/<container>` as an ordered name-to-contents listing, and the
log of blob uploads performed so far as (container, key, bytes) triples.
The `schemas` and `keyProps` dicts are keyed by the decoded JSON value of
the message's `stream` field, as Python dicts are. -/
structure PState where
  state : Json
  schemas : List (Json × Json)
  keyProps : List (Json × Json)
  files : List (String × String)
  uploads : List (String × String × String)

/-- External collaborators of `persist_lines`, at their call boundary:
`container` is `blob_container_name`; `compress` models the gzip module's
lossless compression of a file's bytes (lines 106-108); `uploadOk c k`
tells whether `block_blob_service.create_blob_from_path` on container `c`
and blob key `k` succeeds or raises (lines 109-115); `validate sch rec`
models `jsonschema.Draft4Validator(sch).validate(rec)` returning true
exactly when no ValidationError is raised (line 83, Draft-4 semantics). -/
structure Ctx where
  container : String
  compress : String → String
  uploadOk : String → String → Bool
  validate : Json → Json → Bool

/-- One line of standard input: its raw text together with the result of
`json.loads` on it (`none` means `json.decoder.JSONDecodeError`, source
lines 60-64); the decoder itself is Python's stdlib, external here. -/
structure InputLine where
  raw : String
  json : Option Json

/-- The Python exceptions `persist_lines` and its callees can raise, one
constructor per distinct raise site or built-in exception. -/
inductive PyErr where
  | jsonDecodeError (raw : String)
  | missingType (raw : String)
  | missingStream (raw : String)
  | unknownStream (stream : Json)
  | keyError (key : String)
  | schemaValidationError
  | typeError (msg : String)
  | missingKeyProperties
  | unknownMessageType (t : Json)
  | uploadError (key : String)
  | fileNotFound (name : String)

/-- The flush loop of the STATE branch (source lines 102-117): for each
name in the directory snapshot taken by `os.listdir`, gzip-compress that
file's contents to the sibling artifact `now + ".gz"`, upload the artifact
to the container under `blobKey now name`, then remove the original and
the artifact; a failing upload raises, leaving both files in place. -/
def flushFiles (ctx : Ctx) (now : String) :
    List String → PState → Except (PyErr × PState) PState
  | [], st => .ok st
  | f :: rest, st =>
    match lookupB st.files f with
    | none => .error (.fileNotFound f, st)
    | some content =>
      let gzName := now ++ ".gz"
      let artifact := ctx.compress content
      let st1 : PState := { st with files := insertB st.files gzName artifact }
      let key := blobKey now f
      if ctx.uploadOk ctx.container key then
        flushFiles ctx now rest
          { st1 with
            uploads := st1.uploads ++ [(ctx.container, key, artifact)],
            files := eraseB (eraseB st1.files f) gzName }
      else
        .error (.uploadError key, st1)

/-- One iteration of the `for line in lines` loop of `persist_lines`
(source lines 59-133), translated branch by branch in source order. In the
STATE branch the `os.path.exists(parent_dir)` guard of line 101 is always
true in this model: the directory is created at function entry (line 56)
and nothing ever removes it. -/
def step (ctx : Ctx) (now : String) (st : PState) (l : InputLine) :
    Except (PyErr × PState) PState :=
  match l.json with
  | none => .error (.jsonDecodeError l.raw, st)
  | some j =>
    match j.get? "type" with
    | none => .error (.missingType l.raw, st)
    | some t =>
      match t with
      | .str "RECORD" =>
        match j.get? "stream" with
        | none => .error (.missingStream l.raw, st)
        | some sv =>
          match lookupB st.schemas sv with
          | none => .error (.unknownStream sv, st)
          | some schema =>
            match j.get? "record" with
            | none => .error (.keyError "record", st)
            | some rec =>
              if ctx.validate schema rec then
                match sv with
                | .str s =>
                  .ok { st with
                        files := appendB st.files (s ++ ".json") (l.raw ++ ",\n"),
                        state := Json.null }
                | _ => .error (.typeError "can only concatenate str to str", st)
              else .error (.schemaValidationError, st)
      | .str "STATE" =>
        match j.get? "value" with
        | none => .error (.keyError "value", st)
        | some v =>
          let st1 : PState := { st with state := v }
          match v with
          | .obj fields =>
            match lookupB fields "currently_syncing" with
            | none => .error (.keyError "currently_syncing", st1)
            | some cs =>
              if cs.falsy then flushFiles ctx now (st1.files.map Prod.fst) st1
              else .ok st1
          | _ => .error (.typeError "value is not subscriptable", st1)
      | .str "SCHEMA" =>
        match j.get? "stream" with
        | none => .error (.missingStream l.raw, st)
        | some sv =>
          match j.get? "schema" with
          | none => .error (.keyError "schema", st)
          | some sch =>
            let st1 : PState := { st with schemas := insertB st.schemas sv sch }
            match j.get? "key_properties" with
            | none => .error (.missingKeyProperties, st1)
            | some kp =>
              .ok { st1 with keyProps := insertB st1.keyProps sv kp }
      | .str "ACTIVATE_VERSION" => .ok st
      | _ => .error (.unknownMessageType t, st)

/-- The whole `for line in lines` loop: lines are consumed strictly in
order and the first exception aborts the rest of the input (no skip, no
retry). -/
def runLines (ctx : Ctx) (now : String) :
    PState → List InputLine → Except (PyErr × PState) PState
  | st, [] => .ok st
  | st, l :: rest =>
    match step ctx now st l with
    | .ok st1 => runLines ctx now st1 rest
    | .error e => .error e

/-- The state of `persist_lines` just after lines 45-56: no pending state,
empty dicts, and a freshly reset empty working directory (`shutil.rmtree`
then `os.mkdir`). -/
def initState : PState :=
  { state := Json.null, schemas := [], keyProps := [], files := [], uploads := [] }

/-- The body of `persist_lines` (source lines 45-135). `datetime.now()` is
called exactly once, at function entry (line 51); `clock` lists the values
successive wall-clock reads would produce during the run, of which the
function consumes only the first. The final `PState` stands for the
returned `state` together with the side effects performed. -/
def persistLines (ctx : Ctx) (clock : List String) (lines : List InputLine) :
    Except (PyErr × PState) PState :=
  runLines ctx (clock.headD "") initState lines

mutual

/-- Serialization of a decoded JSON value back to text, modelling Python
`json.dumps` with its default separators (source line 28); string escaping
is not modelled, no value under study needing escapes. -/
def dumps : Json → String
  | .null => "null"
  | .bool true => "true"
  | .bool false => "false"
  | .num n => toString n
  | .str s => "\"" ++ s ++ "\""
  | .arr elems => "[" ++ dumpsElems elems ++ "]"
  | .obj fields => "\x7b" ++ dumpsFields fields ++ "\x7d"

/-- Comma-separated serialization of JSON array elements. -/
def dumpsElems : List Json → String
  | [] => ""
  | [x] => dumps x
  | x :: y :: rest => dumps x ++ ", " ++ dumpsElems (y :: rest)

/-- Comma-separated serialization of JSON object fields. -/
def dumpsFields : List (String × Json) → String
  | [] => ""
  | [(k, v)] => "\"" ++ k ++ "\": " ++ dumps v
  | (k, v) :: g :: rest => "\"" ++ k ++ "\": " ++ dumps v ++ ", " ++ dumpsFields (g :: rest)

end

/-- The function `emit_state` (source lines 26-31): the list of lines
written to stdout — nothing when `state` is Python `None`, otherwise the
single line `json.dumps(state) + "\n"`. -/
def emitState : Json → List String
  | .null => []
  | v => [dumps v ++ "\n"]

/-- The composition `emit_state(persist_lines(...))` that `main` performs
at source lines 180-182 when the call succeeds: the stdout lines produced
at end of input. -/
def runAndEmit (ctx : Ctx) (clock : List String) (lines : List InputLine) :
    Except (PyErr × PState) (List String) :=
  match persistLines ctx clock lines with
  | .ok st => .ok (emitState st.state)
  | .error e => .error e

/-- Number of parameters in the definition of `persist_lines`
(source line 45: `block_blob_service`, `blob_container_name`, `lines`). -/
def persistLinesParamCount : Nat := 3

/-- Number of positional arguments `main` passes to `persist_lines`
(source line 180: `block_blob_service`, `blob_container_name`, `input`,
`buffer`). -/
def mainArgCount : Nat := 4

/-- The tail of `main` (source lines 174-183) after config loading and
client construction: Python checks call arity before executing a callee,
so when the argument count differs from the parameter count the call at
line 180 raises TypeError with `persist_lines` never entered — otherwise
the pipeline would run and the returned state would be emitted. The error
carries `initState`: no line read, no file written, no upload done. -/
def main (ctx : Ctx) (clock : List String) (lines : List InputLine) :
    Except (PyErr × PState) (List String) :=
  if mainArgCount = persistLinesParamCount then
    runAndEmit ctx clock lines
  else
    .error (.typeError "persist_lines() takes 3 positional arguments but 4 were given",
            initState)

/-- The machine state reached by a run, whether it ended normally or with
an exception (the error channel carries the state at raise time). -/
def resultSt : Except (PyErr × PState) PState → PState
  | .ok st => st
  | .error (_, st) => st

/-- The `required`-keyword fragment of JSON Schema Draft 4, used to give
concrete validators in example runs: every name listed in the schema's
`required` array must be a field of the record. The full Draft-4 checker
is the external jsonschema library; theorems about validation quantify
over `Ctx.validate` and do not depend on this fragment. -/
def draft4Required (schema record : Json) : Bool :=
  match schema.get? "required" with
  | some (.arr reqs) =>
    reqs.all fun r =>
      match r with
      | .str k => (record.get? k).isSome
      | _ => true
  | _ => true

/-- Example context: container `c`, a tagging compressor, uploads that
always succeed, and the `required`-fragment validator. -/
def ctxEx : Ctx :=
  { container := "c",
    compress := fun s => "gz(" ++ s ++ ")",
    uploadOk := fun _ _ => true,
    validate := draft4Required }

/-- Example context whose every upload attempt fails (the blob client
raises), for exercising the upload-failure path. -/
def ctxFailUp : Ctx :=
  { container := "c",
    compress := fun s => "gz(" ++ s ++ ")",
    uploadOk := fun _ _ => false,
    validate := draft4Required }

/-- Concrete input line: a SCHEMA message for stream `users` requiring
field `id`. -/
def lineSchemaUsers : InputLine :=
  { raw := "\x7b\"type\": \"SCHEMA\", \"stream\": \"users\", \"schema\": \x7b\"type\": \"object\", \"required\": [\"id\"]\x7d, \"key_properties\": [\"id\"]\x7d",
    json := some (.obj
      [("type", .str "SCHEMA"),
       ("stream", .str "users"),
       ("schema", .obj [("type", .str "object"), ("required", .arr [.str "id"])]),
       ("key_properties", .arr [.str "id"])]) }

/-- Concrete input line: a valid RECORD for stream `users` with id 1. -/
def lineRecordUsers1 : InputLine :=
  { raw := "\x7b\"type\": \"RECORD\", \"stream\": \"users\", \"record\": \x7b\"id\": 1\x7d\x7d",
    json := some (.obj
      [("type", .str "RECORD"),
       ("stream", .str "users"),
       ("record", .obj [("id", .num 1)])]) }

/-- Concrete input line: a valid RECORD for stream `users` with id 2. -/
def lineRecordUsers2 : InputLine :=
  { raw := "\x7b\"type\": \"RECORD\", \"stream\": \"users\", \"record\": \x7b\"id\": 2\x7d\x7d",
    json := some (.obj
      [("type", .str "RECORD"),
       ("stream", .str "users"),
       ("record", .obj [("id", .num 2)])]) }

/-- Concrete input line: a RECORD for stream `users` missing the required
`id` field, so Draft-4 validation rejects it. -/
def lineRecordUsersBad : InputLine :=
  { raw := "\x7b\"type\": \"RECORD\", \"stream\": \"users\", \"record\": \x7b\x7d\x7d",
    json := some (.obj
      [("type", .str "RECORD"),
       ("stream", .str "users"),
       ("record", .obj [])]) }

/-- Concrete input line: a RECORD for stream `orders`, for which no SCHEMA
is ever sent. -/
def lineRecordOrders : InputLine :=
  { raw := "\x7b\"type\": \"RECORD\", \"stream\": \"orders\", \"record\": \x7b\"id\": 7\x7d\x7d",
    json := some (.obj
      [("type", .str "RECORD"),
       ("stream", .str "orders"),
       ("record", .obj [("id", .num 7)])]) }

/-- Concrete input line: a STATE message with `currently_syncing` false,
triggering a flush. -/
def lineStateFlush : InputLine :=
  { raw := "\x7b\"type\": \"STATE\", \"value\": \x7b\"currently_syncing\": false\x7d\x7d",
    json := some (.obj
      [("type", .str "STATE"),
       ("value", .obj [("currently_syncing", .bool false)])]) }

/-- Concrete input line: a STATE message with `currently_syncing` true. -/
def lineStateTrue : InputLine :=
  { raw := "\x7b\"type\": \"STATE\", \"value\": \x7b\"currently_syncing\": true\x7d\x7d",
    json := some (.obj
      [("type", .str "STATE"),
       ("value", .obj [("currently_syncing", .bool true)])]) }

/-- Concrete input line: a STATE message whose value object lacks the
`currently_syncing` field entirely. -/
def lineStateNoCS : InputLine :=
  { raw := "\x7b\"type\": \"STATE\", \"value\": \x7b\"bookmark\": 5\x7d\x7d",
    json := some (.obj
      [("type", .str "STATE"),
       ("value", .obj [("bookmark", .num 5)])]) }

/-- Concrete input line: a SCHEMA message for a stream literally named
`a.json` (nothing in the protocol forbids the substring ".json" in a
stream name). -/
def lineSchemaAJson : InputLine :=
  { raw := "\x7b\"type\": \"SCHEMA\", \"stream\": \"a.json\", \"schema\": \x7b\x7d, \"key_properties\": []\x7d",
    json := some (.obj
      [("type", .str "SCHEMA"),
       ("stream", .str "a.json"),
       ("schema", .obj []),
       ("key_properties", .arr [])]) }

/-- Concrete input line: a valid RECORD for the stream named `a.json`. -/
def lineRecordAJson : InputLine :=
  { raw := "\x7b\"type\": \"RECORD\", \"stream\": \"a.json\", \"record\": \x7b\"id\": 3\x7d\x7d",
    json := some (.obj
      [("type", .str "RECORD"),
       ("stream", .str "a.json"),
       ("record", .obj [("id", .num 3)])]) }

/-- The declared schema of stream `users` in the concrete examples:
an object with required field `id`. -/
def usersSchemaJson : Json :=
  .obj [("type", .str "object"), ("required", .arr [.str "id"])]

/-- The machine state after processing `lineSchemaUsers` from the initial
state: the schema and key properties of `users` registered, nothing else. -/
def stAfterSchemaUsers : PState :=
  { initState with
      schemas := [(.str "users", usersSchemaJson)],
      keyProps := [(.str "users", .arr [.str "id"])] }

/-- Every upload recorded so far keys its blob as
`<name stripped of ".json">/<now>.gz` for some directory entry name: the
shape every flush gives to blob keys, with `now` the single wall-clock
sample of the run. -/
def KeysUseNow (now : String) (st : PState) : Prop :=
  ∀ u ∈ st.uploads, ∃ f, u.2.1 = blobKey now f

theorem lookupB_insertB_self {α β : Type} [BEq α] [LawfulBEq α]
    (xs : List (α × β)) (k : α) (v : β) :
    lookupB (insertB xs k v) k = some v := by
  induction xs with
  | nil => simp [insertB, lookupB]
  | cons p rest ih =>
    obtain ⟨a, b⟩ := p
    by_cases h : a = k
    · subst h; simp [insertB, lookupB]
    · simp [insertB, lookupB, h, ih]

theorem lookupB_insertB_ne {α β : Type} [BEq α] [LawfulBEq α]
    (xs : List (α × β)) (k k2 : α) (v : β) (h : k ≠ k2) :
    lookupB (insertB xs k v) k2 = lookupB xs k2 := by
  induction xs with
  | nil => simp [insertB, lookupB, h]
  | cons p rest ih =>
    obtain ⟨a, b⟩ := p
    by_cases ha : a = k
    · subst ha; simp [insertB, lookupB, h]
    · by_cases ha2 : a = k2
      · subst ha2; simp [insertB, lookupB, ha]
      · simp [insertB, lookupB, ha, ha2, ih]

theorem insertB_of_not_mem {α β : Type} [BEq α] [LawfulBEq α]
    (xs : List (α × β)) (k : α) (v : β) (h : k ∉ xs.map Prod.fst) :
    insertB xs k v = xs ++ [(k, v)] := by
  induction xs with
  | nil => simp [insertB]
  | cons p rest ih =>
    obtain ⟨a, b⟩ := p
    simp only [List.map_cons, List.mem_cons] at h
    push_neg at h
    simp [insertB, Ne.symm h.1, ih h.2]

theorem eraseB_of_not_mem {α β : Type} [BEq α] [LawfulBEq α]
    (xs : List (α × β)) (k : α) (h : k ∉ xs.map Prod.fst) :
    eraseB xs k = xs := by
  induction xs with
  | nil => simp [eraseB]
  | cons p rest ih =>
    obtain ⟨a, b⟩ := p
    simp only [List.map_cons, List.mem_cons] at h
    push_neg at h
    simp [eraseB, Ne.symm h.1, ih h.2]

theorem eraseB_append {α β : Type} [BEq α]
    (xs ys : List (α × β)) (k : α) :
    eraseB (xs ++ ys) k = eraseB xs k ++ eraseB ys k := by
  induction xs with
  | nil => simp [eraseB]
  | cons p rest ih =>
    obtain ⟨a, b⟩ := p
    by_cases h : (a == k) = true
    · simp [eraseB, h, ih]
    · simp only [Bool.not_eq_true] at h
      simp [eraseB, h, ih]

theorem eraseB_cons_self {α β : Type} [BEq α] [LawfulBEq α]
    (xs : List (α × β)) (k : α) (v : β) (h : k ∉ xs.map Prod.fst) :
    eraseB ((k, v) :: xs) k = xs := by
  simp [eraseB, eraseB_of_not_mem xs k h]

/-- A flush in which every upload succeeds consumes the whole directory:
starting from a directory listing `fs` (no duplicate names, none already
named like the compressed artifact), `flushFiles` ends normally, the
directory is empty, and exactly one upload per file was appended, keyed
`blobKey now name` and carrying the compressed contents. -/
theorem flushFiles_all_ok (ctx : Ctx) (now : String)
    (hup : ∀ k, ctx.uploadOk ctx.container k = true) :
    ∀ (fs : List (String × String)) (st : PState),
      st.files = fs → (fs.map Prod.fst).Nodup → (now ++ ".gz") ∉ fs.map Prod.fst →
      flushFiles ctx now (fs.map Prod.fst) st =
        .ok { st with
                files := [],
                uploads := st.uploads ++
                  fs.map (fun p => (ctx.container, blobKey now p.1, ctx.compress p.2)) } := by
  intro fs
  induction fs with
  | nil =>
    intro st hfiles _ _
    obtain ⟨s1, s2, s3, s4, s5⟩ := st
    simp only at hfiles
    subst hfiles
    simp [flushFiles]
  | cons p rest ih =>
    intro st hfiles hnodup hgz
    obtain ⟨f, c⟩ := p
    simp only [List.map_cons, List.nodup_cons] at hnodup
    simp only [List.map_cons, List.mem_cons] at hgz
    push_neg at hgz
    have hlook : lookupB st.files f = some c := by
      rw [hfiles]; simp [lookupB]
    simp only [List.map_cons, flushFiles, hlook, hup, if_true]
    have hins : insertB st.files (now ++ ".gz") (ctx.compress c) =
        ((f, c) :: rest) ++ [(now ++ ".gz", ctx.compress c)] := by
      rw [hfiles]
      exact insertB_of_not_mem _ _ _ (by simp [hgz.1, hgz.2])
    have herase :
        eraseB (eraseB (insertB st.files (now ++ ".gz") (ctx.compress c)) f) (now ++ ".gz") =
        rest := by
      rw [hins]
      rw [eraseB_append]
      rw [eraseB_cons_self rest f c hnodup.1]
      have h1 : eraseB [((now ++ ".gz" : String), ctx.compress c)] f = [(now ++ ".gz", ctx.compress c)] :=
        eraseB_of_not_mem _ _ (by simp [Ne.symm hgz.1])
      rw [h1, eraseB_append]
      rw [eraseB_of_not_mem rest _ hgz.2]
      simp [eraseB]
    rw [herase]
    rw [ih _ rfl hnodup.2 hgz.2]
    simp [List.append_assoc]

theorem keysUseNow_flushFiles (ctx : Ctx) (now : String) :
    ∀ (names : List String) (st : PState), KeysUseNow now st →
      KeysUseNow now (resultSt (flushFiles ctx now names st)) := by
  intro names
  induction names with
  | nil => intro st h; exact h
  | cons f rest ih =>
    intro st h
    simp only [flushFiles]
    cases hlook : lookupB st.files f with
    | none => exact h
    | some c =>
      simp only []
      by_cases hup : ctx.uploadOk ctx.container (blobKey now f) = true
      · simp only [hup, if_true]
        apply ih
        intro u hu
        simp only [List.mem_append, List.mem_singleton] at hu
        rcases hu with hu | hu
        · exact h u hu
        · exact ⟨f, by rw [hu]⟩
      · simp only [Bool.not_eq_true] at hup
        simp only [hup, if_false]
        exact h

theorem keysUseNow_step (ctx : Ctx) (now : String) (st : PState) (l : InputLine)
    (h : KeysUseNow now st) :
    KeysUseNow now (resultSt (step ctx now st l)) := by
  unfold step
  repeat' split
  all_goals first
    | exact h
    | exact keysUseNow_flushFiles ctx now _ _ h

theorem keysUseNow_runLines (ctx : Ctx) (now : String) :
    ∀ (lines : List InputLine) (st : PState), KeysUseNow now st →
      KeysUseNow now (resultSt (runLines ctx now st lines)) := by
  intro lines
  induction lines with
  | nil => intro st h; exact h
  | cons l rest ih =>
    intro st h
    simp only [runLines]
    cases hstep : step ctx now st l with
    | ok st1 =>
      have h1 := keysUseNow_step ctx now st l h
      rw [hstep] at h1
      exact ih st1 h1
    | error e =>
      have h1 := keysUseNow_step ctx now st l h
      rw [hstep] at h1
      exact h1

/-- C1, counterexample: the timestamp is NOT derived from each flush's
wall-clock time. In a run whose wall clock reads 20240101T000000 at start
and 20240101T000005 by the second flush (two distinct seconds), the two
flushes of stream `users` nevertheless produce blob keys with the same
timestamp — both `users/20240101T000000.gz` — because `datetime.now()` is
sampled once at line 51, before the loop, so the claim's promised distinct
timestamps do not happen. -/
theorem c1_counterexample :
    (resultSt (persistLines ctxEx ["20240101T000000", "20240101T000005"]
        [lineSchemaUsers, lineRecordUsers1, lineStateFlush,
         lineRecordUsers2, lineStateFlush])).uploads.map (fun u => u.2.1) =
      ["users/20240101T000000.gz", "users/20240101T000000.gz"] ∧
    ("20240101T000000" : String) ≠ "20240101T000005" := by
  exact ⟨rfl, by decide⟩

/-- C1, amended: every compressed artifact and blob key of a run is tagged
with the single wall-clock timestamp sampled at the start of
`persist_lines` (format YYYYMMDDTHHMMSS), not with per-flush times: every
upload of the run, over any input and any later clock readings, has a blob
key of the form `<stripped name>/<run-start timestamp>.gz`, so flushes at
different wall-clock seconds within one run still share one timestamp. -/
theorem c1_timestamp_is_run_start (ctx : Ctx) (clock : List String)
    (lines : List InputLine) :
    ∀ u ∈ (resultSt (persistLines ctx clock lines)).uploads,
      ∃ f, u.2.1 = blobKey (clock.headD "") f := by
  have h0 : KeysUseNow (clock.headD "") initState := by
    intro u hu
    simp [initState] at hu
  exact keysUseNow_runLines ctx (clock.headD "") lines initState h0

/-- C1, witness for the amended theorem: the single upload of a concrete
one-flush run indeed carries the run-start timestamp 20240101T000000 in
its key. -/
theorem c1_timestamp_witness :
    ∃ f, ((resultSt (persistLines ctxEx ["20240101T000000"]
        [lineSchemaUsers, lineRecordUsers1, lineStateFlush])).uploads.headD
          ("", "", "")).2.1 = blobKey "20240101T000000" f :=
  c1_timestamp_is_run_start ctxEx ["20240101T000000"]
    [lineSchemaUsers, lineRecordUsers1, lineStateFlush] _ (List.Mem.head _)

/-- C2, counterexample: a STATE message whose value object lacks
`currently_syncing` is NOT treated as falsy and does not flush: on the
concrete input whose only line is a STATE with value containing just a
bookmark, the run aborts with KeyError("currently_syncing") raised by the
subscript at line 101, instead of flushing without error as claimed. -/
theorem c2_counterexample :
    persistLines ctxEx ["T"] [lineStateNoCS] =
      .error (.keyError "currently_syncing",
        { state := Json.obj [("bookmark", .num 5)], schemas := [], keyProps := [],
          files := [], uploads := [] }) := rfl

/-- C2, amended: for every STATE message whose value object lacks the
`currently_syncing` field entirely, processing raises
KeyError("currently_syncing") — a fatal error, not a flush: the step fails,
no file is touched and no upload happens (the carried state differs from
the pre-step state only in the recorded `state` value, set at line 99
before the failing subscript of line 101). Absent is therefore NOT
equivalent to false or null, which do trigger the flush. -/
theorem c2_absent_currently_syncing_raises (ctx : Ctx) (now : String)
    (st : PState) (l : InputLine) (j : Json) (fields : List (String × Json))
    (hj : l.json = some j)
    (ht : j.get? "type" = some (.str "STATE"))
    (hv : j.get? "value" = some (.obj fields))
    (hcs : lookupB fields "currently_syncing" = none) :
    step ctx now st l =
      .error (.keyError "currently_syncing", { st with state := .obj fields }) := by
  simp only [step, hj, ht, hv, hcs]

/-- C2, witness: the amended theorem applied to a concrete STATE line with
no `currently_syncing` field, from the initial state. -/
theorem c2_absent_witness :
    step ctxEx "T" initState lineStateNoCS =
      .error (.keyError "currently_syncing",
        { initState with state := .obj [("bookmark", .num 5)] }) :=
  c2_absent_currently_syncing_raises ctxEx "T" initState lineStateNoCS
    (.obj [("type", .str "STATE"), ("value", .obj [("bookmark", .num 5)])])
    [("bookmark", .num 5)] rfl rfl rfl rfl

/-- C3, counterexample: processing a valid RECORD does NOT append the
canonical JSON text of the record body: on a concrete SCHEMA-then-RECORD
input, the buffer file for `users` holds the entire raw RECORD message
line followed by ",\n" (source line 93 writes the raw `line`), which
differs from the record object's own JSON text followed by the separator. -/
theorem c3_counterexample :
    lookupB (resultSt (persistLines ctxEx ["T"]
        [lineSchemaUsers, lineRecordUsers1])).files "users.json" =
      some (lineRecordUsers1.raw ++ ",\n") ∧
    lineRecordUsers1.raw ++ ",\n" ≠ dumps (Json.obj [("id", .num 1)]) ++ ",\n" := by
  exact ⟨rfl, by decide⟩

/-- C3, amended: for every well-formed RECORD message that validates
against its stream's declared schema, processing appends the ENTIRE raw
input line (the full RECORD message text, not just the record body),
followed by the separator ",\n", to that stream's buffer file (append
mode, file created on first write), and clears the pending state; the
record's text appears in the file only as a substring of the message. -/
theorem c3_record_appends_raw_line (ctx : Ctx) (now : String) (st : PState)
    (l : InputLine) (j : Json) (s : String) (schema rec : Json)
    (hj : l.json = some j)
    (ht : j.get? "type" = some (.str "RECORD"))
    (hs : j.get? "stream" = some (.str s))
    (hsch : lookupB st.schemas (.str s) = some schema)
    (hrec : j.get? "record" = some rec)
    (hval : ctx.validate schema rec = true) :
    step ctx now st l =
      .ok { st with
              files := appendB st.files (s ++ ".json") (l.raw ++ ",\n"),
              state := Json.null } := by
  simp only [step, hj, ht, hs, hsch, hrec, hval, if_true]

/-- C3, witness for the amended theorem: the concrete RECORD for `users`
appended to the empty directory produces the buffer file `users.json`
holding the raw message line plus ",\n". -/
theorem c3_record_witness :
    step ctxEx "T" stAfterSchemaUsers lineRecordUsers1 =
      .ok { stAfterSchemaUsers with
              files := appendB stAfterSchemaUsers.files "users.json"
                (lineRecordUsers1.raw ++ ",\n"),
              state := Json.null } :=
  c3_record_appends_raw_line ctxEx "T" stAfterSchemaUsers lineRecordUsers1
    (.obj [("type", .str "RECORD"), ("stream", .str "users"),
           ("record", .obj [("id", .num 1)])])
    "users" usersSchemaJson (.obj [("id", .num 1)]) rfl rfl rfl rfl rfl rfl

/-- C4, counterexample: the blob key is NOT always
`<stream-name>/<timestamp>.gz`: for the stream literally named `a.json`
(buffer file `a.json.json`), the flush uploads to key `a/T.gz`, because
line 111 strips every occurrence of ".json" from the file name, including
the one inside the stream name — so the claimed key `a.json/T.gz` is not
the one used. The rest of the claim does hold on this input: exactly one
upload, and the directory is left empty. -/
theorem c4_counterexample :
    (resultSt (persistLines ctxEx ["T"]
        [lineSchemaAJson, lineRecordAJson, lineStateFlush])).uploads.map
        (fun u => u.2.1) = ["a/T.gz"] ∧
    ("a/T.gz" : String) ≠ "a.json" ++ "/" ++ "T" ++ ".gz" := by
  exact ⟨rfl, by decide⟩

/-- C4, amended: for every STATE message with falsy `currently_syncing`
(in particular `false`), when every upload succeeds, every buffer file
present in the working directory at that moment is uploaded exactly once —
to the key `<file name with every ".json" occurrence removed>/<timestamp>.gz`,
which equals `<stream-name>/<timestamp>.gz` whenever the stream name does
not contain ".json" — and afterwards the working directory is empty: both
each original file and its compressed artifact have been removed. The side
conditions (distinct file names, no file named like the artifact) hold for
every directory the program itself builds, whose files are all named
`<stream>.json`. -/
theorem c4_flush_uploads_every_file (ctx : Ctx) (now : String) (st : PState)
    (l : InputLine) (j : Json) (fields : List (String × Json)) (cs : Json)
    (hj : l.json = some j)
    (ht : j.get? "type" = some (.str "STATE"))
    (hv : j.get? "value" = some (.obj fields))
    (hcs : lookupB fields "currently_syncing" = some cs)
    (hfalsy : cs.falsy = true)
    (hup : ∀ k, ctx.uploadOk ctx.container k = true)
    (hnodup : (st.files.map Prod.fst).Nodup)
    (hgz : (now ++ ".gz") ∉ st.files.map Prod.fst) :
    step ctx now st l =
      .ok { st with
              state := .obj fields,
              files := [],
              uploads := st.uploads ++ st.files.map
                (fun p => (ctx.container, blobKey now p.1, ctx.compress p.2)) } := by
  simp only [step, hj, ht, hv, hcs, hfalsy, if_true]
  exact flushFiles_all_ok ctx now hup st.files { st with state := .obj fields }
    rfl hnodup hgz

/-- C4, witness for the amended theorem: flushing a directory holding the
single buffer file `users.json` uploads it once to `users/T.gz` and leaves
the directory empty. -/
theorem c4_flush_witness :
    step ctxEx "T"
      { initState with files := [("users.json", "R,\n")] } lineStateFlush =
      .ok { initState with
              state := .obj [("currently_syncing", .bool false)],
              files := [],
              uploads := [("c", "users/T.gz", "gz(R,\n)")] } :=
  c4_flush_uploads_every_file ctxEx "T"
    { initState with files := [("users.json", "R,\n")] } lineStateFlush
    (.obj [("type", .str "STATE"),
           ("value", .obj [("currently_syncing", .bool false)])])
    [("currently_syncing", .bool false)] (.bool false)
    rfl rfl rfl rfl rfl (fun _ => rfl) (by decide) (by decide)

/-- C5 (confirmed): for every STATE message with `currently_syncing` true
(or any truthy value), the step performs no upload and touches no file —
the machine state is unchanged except that the STATE's value is retained
as the pending state. -/
theorem c5_truthy_state_is_noop (ctx : Ctx) (now : String) (st : PState)
    (l : InputLine) (j : Json) (fields : List (String × Json)) (cs : Json)
    (hj : l.json = some j)
    (ht : j.get? "type" = some (.str "STATE"))
    (hv : j.get? "value" = some (.obj fields))
    (hcs : lookupB fields "currently_syncing" = some cs)
    (htruthy : cs.falsy = false) :
    step ctx now st l = .ok { st with state := .obj fields } := by
  simp only [step, hj, ht, hv, hcs, htruthy, Bool.false_eq_true, if_false]

/-- C5, witness: a concrete STATE with `currently_syncing` true leaves a
state holding one buffer file untouched, recording only the new pending
state. -/
theorem c5_truthy_witness :
    step ctxEx "T"
      { initState with files := [("users.json", "R,\n")] } lineStateTrue =
      .ok { initState with
              files := [("users.json", "R,\n")],
              state := .obj [("currently_syncing", .bool true)] } :=
  c5_truthy_state_is_noop ctxEx "T"
    { initState with files := [("users.json", "R,\n")] } lineStateTrue
    (.obj [("type", .str "STATE"),
           ("value", .obj [("currently_syncing", .bool true)])])
    [("currently_syncing", .bool true)] (.bool true)
    rfl rfl rfl rfl rfl

/-- C6 (confirmed): for every RECORD message naming a stream with no
previously registered schema, the step fails with the unknown-stream error
(the raise at lines 74-75) and the carried state is exactly the pre-step
state: no buffer file is created, nothing is written. -/
theorem c6_record_before_schema_fails (ctx : Ctx) (now : String) (st : PState)
    (l : InputLine) (j : Json) (sv : Json)
    (hj : l.json = some j)
    (ht : j.get? "type" = some (.str "RECORD"))
    (hs : j.get? "stream" = some sv)
    (hsch : lookupB st.schemas sv = none) :
    step ctx now st l = .error (.unknownStream sv, st) := by
  simp only [step, hj, ht, hs, hsch]

/-- C6, witness: a RECORD for `orders` with no preceding SCHEMA fails from
the initial state with the unknown-stream error, creating no file. -/
theorem c6_record_witness :
    step ctxEx "T" initState lineRecordOrders =
      .error (.unknownStream (.str "orders"), initState) :=
  c6_record_before_schema_fails ctxEx "T" initState lineRecordOrders
    (.obj [("type", .str "RECORD"), ("stream", .str "orders"),
           ("record", .obj [("id", .num 7)])])
    (.str "orders") rfl rfl rfl rfl

/-- C7 (confirmed): for every RECORD message whose payload fails Draft-4
validation against its stream's declared schema (the validator raising at
line 83), the step fails with the schema-validation error before any file
is opened: the carried state is exactly the pre-step state, so the buffer
file's contents and existence are unchanged. Quantified over every
validator `ctx.validate`, hence over full Draft-4 semantics. -/
theorem c7_invalid_record_writes_nothing (ctx : Ctx) (now : String)
    (st : PState) (l : InputLine) (j : Json) (sv : Json) (schema rec : Json)
    (hj : l.json = some j)
    (ht : j.get? "type" = some (.str "RECORD"))
    (hs : j.get? "stream" = some sv)
    (hsch : lookupB st.schemas sv = some schema)
    (hrec : j.get? "record" = some rec)
    (hval : ctx.validate schema rec = false) :
    step ctx now st l = .error (.schemaValidationError, st) := by
  simp only [step, hj, ht, hs, hsch, hrec, hval, Bool.false_eq_true, if_false]

/-- C7, witness: a RECORD for `users` missing the required `id` fails the
`required` check of the registered schema and the step fails with the
schema-validation error, leaving the (empty) directory as it was. -/
theorem c7_invalid_witness :
    step ctxEx "T" stAfterSchemaUsers lineRecordUsersBad =
      .error (.schemaValidationError, stAfterSchemaUsers) :=
  c7_invalid_record_writes_nothing ctxEx "T" stAfterSchemaUsers
    lineRecordUsersBad
    (.obj [("type", .str "RECORD"), ("stream", .str "users"),
           ("record", .obj [])])
    (.str "users") usersSchemaJson (.obj []) rfl rfl rfl rfl rfl rfl

/-- C8 (confirmed): pending state is cleared after every successful record
append — any RECORD step that ends normally leaves the `state` variable at
Python None (line 95) — and at end of input `emit_state` writes no line
when the pending state is unset, and otherwise exactly one line, the final
non-null STATE value serialized as JSON. -/
theorem c8_pending_state_cleared_and_emitted (ctx : Ctx) (now : String)
    (st : PState) (l : InputLine) (j : Json) (st1 : PState)
    (hj : l.json = some j)
    (ht : j.get? "type" = some (.str "RECORD"))
    (hok : step ctx now st l = .ok st1) :
    st1.state = Json.null ∧
    (∀ (ctx2 : Ctx) (clock : List String) (lines : List InputLine) (st2 : PState),
      persistLines ctx2 clock lines = .ok st2 →
      (st2.state = Json.null → runAndEmit ctx2 clock lines = .ok []) ∧
      (st2.state ≠ Json.null →
        runAndEmit ctx2 clock lines = .ok [dumps st2.state ++ "\n"])) := by
  constructor
  · simp only [step, hj, ht] at hok
    repeat' split at hok
    all_goals first
      | exact Except.noConfusion hok
      | (injection hok with h; rw [← h])
  · intro ctx2 clock lines st2 hrun
    constructor
    · intro hnull
      simp only [runAndEmit, hrun, hnull, emitState]
    · intro hnn
      simp only [runAndEmit, hrun]
      cases hst : st2.state with
      | null => exact absurd hst hnn
      | bool b => simp [emitState]
      | num n => simp [emitState]
      | str s => simp [emitState]
      | arr elems => simp [emitState]
      | obj fields => simp [emitState]

/-- C8, witness: appending a concrete valid RECORD leaves the pending
state unset, and the emission dichotomy holds. -/
theorem c8_witness :
    ({ state := Json.null,
       schemas := [(.str "users", usersSchemaJson)],
       keyProps := [(.str "users", .arr [.str "id"])],
       files := [("users.json", lineRecordUsers1.raw ++ ",\n")],
       uploads := [] } : PState).state = Json.null ∧
    (∀ (ctx2 : Ctx) (clock : List String) (lines : List InputLine) (st2 : PState),
      persistLines ctx2 clock lines = .ok st2 →
      (st2.state = Json.null → runAndEmit ctx2 clock lines = .ok []) ∧
      (st2.state ≠ Json.null →
        runAndEmit ctx2 clock lines = .ok [dumps st2.state ++ "\n"])) :=
  c8_pending_state_cleared_and_emitted ctxEx "T" stAfterSchemaUsers
    lineRecordUsers1
    (.obj [("type", .str "RECORD"), ("stream", .str "users"),
           ("record", .obj [("id", .num 1)])])
    { state := Json.null,
      schemas := [(.str "users", usersSchemaJson)],
      keyProps := [(.str "users", .arr [.str "id"])],
      files := [("users.json", lineRecordUsers1.raw ++ ",\n")],
      uploads := [] }
    rfl rfl rfl

/-- C9 (confirmed): whenever a flush aborts with the upload error, the
failing file and its compressed artifact are both still on disk in the
carried state (lines 116-117 never ran for it), and any step error aborts
the run at once — the remaining input is not processed, there is no retry. -/
theorem c9_upload_failure_is_fatal_and_preserving (ctx : Ctx) (now : String) :
    (∀ (names : List String) (st : PState) (k : String) (st1 : PState),
      (now ++ ".gz") ∉ names →
      flushFiles ctx now names st = .error (.uploadError k, st1) →
      ∃ f content, k = blobKey now f ∧
        lookupB st1.files f = some content ∧
        lookupB st1.files (now ++ ".gz") = some (ctx.compress content)) ∧
    (∀ (st : PState) (l : InputLine) (rest : List InputLine) (e : PyErr × PState),
      step ctx now st l = .error e →
      runLines ctx now st (l :: rest) = .error e) := by
  constructor
  · intro names
    induction names with
    | nil =>
      intro st k st1 _ h
      simp [flushFiles] at h
    | cons f rest ih =>
      intro st k st1 hgz h
      simp only [List.mem_cons] at hgz
      push_neg at hgz
      simp only [flushFiles] at h
      cases hlook : lookupB st.files f with
      | none => simp only [hlook] at h; simp at h
      | some c =>
        simp only [hlook] at h
        by_cases hup : ctx.uploadOk ctx.container (blobKey now f) = true
        · simp only [hup, if_true] at h
          exact ih _ k st1 hgz.2 h
        · simp only [Bool.not_eq_true] at hup
          simp only [hup, Bool.false_eq_true, if_false, Except.error.injEq,
            Prod.mk.injEq, PyErr.uploadError.injEq] at h
          obtain ⟨hk, hst⟩ := h
          refine ⟨f, c, hk.symm, ?_, ?_⟩
          · rw [← hst]
            show lookupB (insertB st.files (now ++ ".gz") (ctx.compress c)) f = some c
            rw [lookupB_insertB_ne st.files (now ++ ".gz") f (ctx.compress c) hgz.1]
            exact hlook
          · rw [← hst]
            exact lookupB_insertB_self st.files (now ++ ".gz") (ctx.compress c)
  · intro st l rest e h
    simp [runLines, h]

/-- C9, witness: with a blob client whose uploads fail, flushing a
directory holding `users.json` aborts with the upload error on key
`users/T.gz`, and both the original file and the artifact `T.gz` are
present in the carried state. -/
theorem c9_witness :
    ∃ f content, ("users/T.gz" : String) = blobKey "T" f ∧
      lookupB ({ state := Json.obj [("currently_syncing", .bool false)],
                 schemas := [], keyProps := [],
                 files := [("users.json", "R,\n"), ("T.gz", "gz(R,\n)")],
                 uploads := [] } : PState).files f = some content ∧
      lookupB ({ state := Json.obj [("currently_syncing", .bool false)],
                 schemas := [], keyProps := [],
                 files := [("users.json", "R,\n"), ("T.gz", "gz(R,\n)")],
                 uploads := [] } : PState).files ("T" ++ ".gz") =
        some (ctxFailUp.compress content) :=
  (c9_upload_failure_is_fatal_and_preserving ctxFailUp "T").1 ["users.json"]
    { state := Json.obj [("currently_syncing", .bool false)],
      schemas := [], keyProps := [],
      files := [("users.json", "R,\n")], uploads := [] }
    "users/T.gz"
    { state := Json.obj [("currently_syncing", .bool false)],
      schemas := [], keyProps := [],
      files := [("users.json", "R,\n"), ("T.gz", "gz(R,\n)")],
      uploads := [] }
    (by decide) rfl

/-- C10 (confirmed): for every configuration and every input, `main`
raises TypeError at the call of line 180 — four positional arguments
against a three-parameter `persist_lines` — before any input line is
processed: the error state is the untouched initial one (no file written,
no upload), and no output is ever produced, so the program as wired never
reads stdin, never flushes and never emits a state line. -/
theorem c10_main_always_raises_typeerror (ctx : Ctx) (clock : List String)
    (lines : List InputLine) :
    main ctx clock lines =
      .error (.typeError "persist_lines() takes 3 positional arguments but 4 were given",
              initState) ∧
    (∀ out, main ctx clock lines ≠ .ok out) ∧
    initState.files = [] ∧ initState.uploads = [] := by
  have hmain : main ctx clock lines =
      .error (.typeError "persist_lines() takes 3 positional arguments but 4 were given",
              initState) := by
    simp [main, mainArgCount, persistLinesParamCount]
  refine ⟨hmain, ?_, rfl, rfl⟩
  intro out
  rw [hmain]
  simp

end TargetAzure
